import Mathlib

set_option maxRecDepth 10000

namespace RobotCtl

/- Shallow embedding of src/robot-operation/control_subscriber.py
   (class RobotController).

   Part 1 models the inbound-payload intake (`_handle_main_payload`,
   `_parse_payload_to_sequence`, the control-directive loop, and the
   shutdown signal) as a pure state transition on the controller's
   shared state.

   Part 2 models the pending-queue concurrency (`_handle_main_payload`,
   `_handle_gesture_payload`, `_worker_loop`) as a small labelled
   transition system where each lock-protected region is one atomic step.

   Part 3 models the motion executor (`_do_op`, `_do_move`,
   `_interruptible_sleep`, `_wake_up_locomotion`, `_check_sdk_return`,
   `_emergency_brake`) and the sequence runner (`_execute_sequence`,
   `_finalize_error_offset`).  The SDK and the interrupt flag are
   oracles: an `Env` answers the i-th SDK call (a return code, or an
   exception) and the i-th interrupt-flag check, and gives the tick
   budget of each timed loop (real-time durations abstracted to tick
   counts).  Speech playback (`boto3`/`subprocess` I/O) touches none of
   the state the claims are about and is omitted from the runner. -/

/-- JSON-like atomic value in an inbound MQTT payload. -/
inductive JAtom where
  | null
  | jbool (b : Bool)
  | jnum (n : Int)
  | jstr (s : String)
deriving DecidableEq

/-- JSON-like payload-field value: an atom or a flat array of atoms.
The handler inspects only one nesting level (array elements are tested
with isinstance(x, str)), so deeper structure behaves exactly like any
other non-string element and is represented by a non-string atom. -/
inductive JVal where
  | atom (a : JAtom)
  | arr (xs : List JAtom)
deriving DecidableEq

/-- An inbound payload on the main command topic; each field is `some v`
iff the corresponding key is present.  Unrecognized extra keys never
influence the handler and are not represented. -/
structure Payload where
  command : Option JVal
  move : Option JVal
  say : Option JVal
deriving DecidableEq

/-- LIN_SPEED = 0.42 (module constant). -/
def LIN_SPEED : Rat := 21/50

/-- MOVE_DURATION = 5.0 (module constant). -/
def MOVE_DURATION : Rat := 5

/-- The controller's shared state touched by the intake handler:
pending queue, interruption signal and reason, pending utterance,
speech/gesture switches, safe mode and tuning parameters. -/
structure CtlSt where
  pending : List (List String)
  seq_running : Bool
  interrupt : Bool
  interrupt_reason : Option String
  say_ : Option String
  saying_switch : Bool
  gesture_switch : Bool
  safe_mode : Bool
  custom_move_speed : Rat
  custom_move_duration : Rat
deriving DecidableEq

/-- Fresh controller state as set up in `__init__`. -/
def defaultCtl : CtlSt :=
  { pending := [], seq_running := false, interrupt := false,
    interrupt_reason := none, say_ := none, saying_switch := false,
    gesture_switch := false, safe_mode := false,
    custom_move_speed := LIN_SPEED, custom_move_duration := MOVE_DURATION }

/-- One control directive from the `for cmd in cmd_list` loop of
`_handle_main_payload` (lines 206-215).  `gesture_on` models
`_start_gesture_subscription` (sets `gesture_switch = True`),
`gesture_off` models `_stop_gesture_subscription`. -/
def applyCmd (st : CtlSt) (c : JAtom) : CtlSt :=
  if c = .jstr "gesture_on" then { st with gesture_switch := true }
  else if c = .jstr "gesture_off" then { st with gesture_switch := false }
  else if c = .jstr "speaker_on" then { st with saying_switch := true }
  else if c = .jstr "speaker_off" then { st with saying_switch := false, say_ := none }
  else if c = .jstr "safe_mode_on" then { st with safe_mode := true, custom_move_speed := 11/100 }
  else if c = .jstr "safe_mode_off" then { st with custom_move_speed := LIN_SPEED, safe_mode := false }
  else if c = .jstr "set_move_duration_up" then { st with custom_move_duration := min 5 (st.custom_move_duration + 1/2) }
  else if c = .jstr "set_move_duration_down" then { st with custom_move_duration := max (1/2) (st.custom_move_duration - 1/2) }
  else st

/-- The `say` block of `_handle_main_payload` (lines 217-219): a string
that is non-blank after stripping replaces the pending utterance, but
only while the speech switch is on. -/
def applySay (p : Payload) (st : CtlSt) : CtlSt :=
  match p.say with
  | some (.atom (.jstr s)) =>
      if st.saying_switch then (if s.trim ≠ "" then { st with say_ := some s } else st) else st
  | _ => st

def isJStr : JAtom → Bool
  | .jstr _ => true
  | _ => false

def getJStr : JAtom → Option String
  | .jstr s => some s
  | _ => none

/-- `isinstance(seq, list) and all(isinstance(x, str) for x in seq)`. -/
def asStrList : JVal → Option (List String)
  | .arr xs => if xs.all isJStr then some (xs.filterMap getJStr) else none
  | .atom _ => none

/-- `_parse_payload_to_sequence` (lines 507-511): `move` takes priority
over `command`; the value must be a list of strings. -/
def parse_payload_to_sequence (p : Payload) : Option (List String) :=
  match p.move with
  | some v => asStrList v
  | none =>
    match p.command with
    | some v => asStrList v
    | none => none

/-- The nine directive names the bad-payload log check recognizes. -/
def recognizedCmds : List String :=
  ["gesture_on", "gesture_off", "speaker_on", "speaker_off", "safe_mode_on",
   "safe_mode_off", "set_move_duration_up", "set_move_duration_down", "get_status"]

/-- What the handler logs (or raises) on the rejection path. -/
inductive LogOut where
  | quiet
  | bad
  | exn
deriving DecidableEq

/-- Evaluation of `all(c in [...] for c in payload["command"])`:
iterating a list checks each element, iterating a string checks its
one-character substrings (which never equal a directive name), and
iterating any other value raises TypeError (`none`). -/
def allCmdsRecognized : JVal → Option Bool
  | .arr xs => some (xs.all fun c => match c with | .jstr s => recognizedCmds.contains s | _ => false)
  | .atom (.jstr s) => some s.isEmpty
  | .atom _ => none

/-- The state after the directive loop (applied when `command` maps to a
list) and the `say` block, before any queue mutation. -/
def preQueueState (p : Payload) (st0 : CtlSt) : CtlSt :=
  applySay p
    (match p.command with
     | some (.arr xs) => xs.foldl applyCmd st0
     | _ => st0)

/-- `_handle_main_payload` (lines 202-241) as a state transition.
Returns the new state plus what was logged on the rejection path:
`.bad` for `logger.error("bad cmd payload...")`, `.exn` when evaluating
the log condition raises TypeError (caught by `on_stream_event`). -/
def handle_main_payload (p : Payload) (st0 : CtlSt) : CtlSt × LogOut :=
  let st2 := preQueueState p st0
  match parse_payload_to_sequence p with
  | some (q :: qs) =>
      let st3 := { st2 with pending := [q :: qs] }
      let st4 :=
        if st3.seq_running && !st3.interrupt then
          { st3 with interrupt_reason := some "interrupted_by_new_command", interrupt := true }
        else st3
      (st4, .quiet)
  | _ =>
      if p.move.isSome then (st2, .bad)
      else
        match p.command with
        | some v =>
          match allCmdsRecognized v with
          | some true => (st2, .quiet)
          | some false => (st2, .bad)
          | none => (st2, .exn)
        | none => (st2, .quiet)

/-- The state effect of `shutdown` (lines 537-543): the gesture
subscription is closed, and if a sequence is running the interruption
signal is asserted with reason "shutdown". -/
def shutdown_signal (st : CtlSt) : CtlSt :=
  let st1 := { st with gesture_switch := false }
  if st1.seq_running then { st1 with interrupt := true, interrupt_reason := some "shutdown" } else st1

/-- A well-formed directive-sourced motion payload carrying sequence S. -/
def movePayload (S : List String) : Payload :=
  { command := none, move := some (.arr (S.map JAtom.jstr)), say := none }

/-- A malformed payload in the sense of the spec: no recognized keys at
all, or a `move` entry that is not a list of operation-name strings. -/
def MalformedPayload (p : Payload) : Prop :=
  (p.command = none ∧ p.move = none ∧ p.say = none) ∨
  (∃ v, p.move = some v ∧ asStrList v = none)

/- ================= Part 2: pending-queue transition system =========

   Each step is one lock-protected region (or one unlocked guard read):
     directive s    - the queue mutation of `_handle_main_payload`
                      (lines 228-233): clear then append a single entry
                      (interrupt bookkeeping is Part 1's concern);
     gestureCheck   - the busy check of `_handle_gesture_payload`
                      (lines 247-252): proceed only if the gate is on
                      and the system is idle;
     gestureAppend s- the append region of `_handle_gesture_payload`
                      (lines 264-271), which runs after the check in a
                      separate critical section and also closes the
                      gesture subscription;
     workerStart    - `_worker_loop` popping the next pending sequence
                      (lines 289-293);
     workerFinish   - `_worker_loop` cleanup after a run (lines 306-322).
   `armed` records that one gesture handler has passed its check and has
   not yet appended (a single in-flight gesture handler is modelled). -/

structure QSt where
  pending : List (List String)
  running : Bool
  gsw : Bool
  armed : Bool
deriving DecidableEq

inductive QStep where
  | directive (s : List String)
  | gestureCheck
  | gestureAppend (s : List String)
  | workerStart
  | workerFinish
deriving DecidableEq

def qstep : QStep → QSt → QSt
  | .directive s, st => { st with pending := [s] }
  | .gestureCheck, st =>
      if st.gsw && !st.running && st.pending.isEmpty && !st.armed then { st with armed := true } else st
  | .gestureAppend s, st =>
      if st.armed then { st with pending := st.pending ++ [s], armed := false, gsw := false } else st
  | .workerStart, st =>
      if !st.running && !st.pending.isEmpty then { st with pending := st.pending.tail, running := true } else st
  | .workerFinish, st => if st.running then { st with running := false } else st

/-- The same steps with each gesture submission's check and append fused
into one atomic step (no other submission interleaved between them). -/
inductive AStep where
  | directive (s : List String)
  | gestureAtomic (s : List String)
  | workerStart
  | workerFinish

def astep : AStep → QSt → QSt
  | .directive s, st => qstep (.directive s) st
  | .gestureAtomic s, st => qstep (.gestureAppend s) (qstep .gestureCheck st)
  | .workerStart, st => qstep .workerStart st
  | .workerFinish, st => qstep .workerFinish st

/-- Idle initial state with the gesture gate enabled. -/
def qInit : QSt := { pending := [], running := false, gsw := true, armed := false }

/- ================= Part 3: motion executor and sequence runner ===== -/

/-- The SDK methods the controller invokes (`unitree` SportClient). -/
inductive SdkCall where
  | Move | StopMove | StandUp | StandDown | RecoveryStand
  | Damp | BalanceStand | Scrape | Hello | Stretch | Dance1 | Dance2 | Heart
deriving DecidableEq

/-- Outcome of one SDK call: a normal return code (`none` = Python None)
or a raised exception with its message string. -/
inductive SdkRes where
  | ret (code : Option Int)
  | exn (msg : String)
deriving DecidableEq

def SdkRes.isExn : SdkRes → Bool
  | .ret _ => false
  | .exn _ => true

/-- The oracles of one run: the answer to the i-th SDK call, the i-th
interrupt-flag check, and the tick budget of the i-th timed move loop
and the i-th interruptible sleep (wall-clock durations abstracted). -/
structure Env where
  sdk : Nat → SdkRes
  intr : Nat → Bool
  moveTicks : Nat → Nat
  sleepTicks : Nat → Nat

/-- No SDK call of this run raises an exception. -/
def NoRaise (env : Env) : Prop := ∀ i, (env.sdk i).isExn = false

/-- Mutable executor state threaded through a run: oracle cursors,
posture, gesture gate, the list of SDK calls issued so far, and the
number of `_emergency_brake` invocations so far. -/
structure RunSt where
  sdkIx : Nat
  intrIx : Nat
  moveIx : Nat
  sleepIx : Nat
  isSitting : Bool
  gestureSwitch : Bool
  trace : List SdkCall
  brakes : Nat
deriving DecidableEq

/-- Issue one SDK call and consume the next oracle answer. -/
def sdkCall (env : Env) (c : SdkCall) (st : RunSt) : SdkRes × RunSt :=
  (env.sdk st.sdkIx, { st with sdkIx := st.sdkIx + 1, trace := st.trace ++ [c] })

/-- Read `self.interrupt.is_set()` once. -/
def intrCheck (env : Env) (st : RunSt) : Bool × RunSt :=
  (env.intr st.intrIx, { st with intrIx := st.intrIx + 1 })

/-- `_emergency_brake` (lines 501-505): EMERGENCY_BRAKE_PULSES = 3 stop
pulses, each in a try that swallows exceptions; the `brakes` counter
records one invocation. -/
def emergency_brake (env : Env) (st : RunSt) : RunSt :=
  let st1 := (sdkCall env .StopMove st).2
  let st2 := (sdkCall env .StopMove st1).2
  let st3 := (sdkCall env .StopMove st2).2
  { st3 with brakes := st3.brakes + 1 }

/-- A Python value as it flows through the op-result triples (`None`, a
bool, or a string). -/
inductive PyVal where
  | pnone
  | pbool (b : Bool)
  | pstr (s : String)
deriving DecidableEq

/-- Python truthiness of such a value. -/
def PyVal.truthy : PyVal → Bool
  | .pnone => false
  | .pbool b => b
  | .pstr s => !s.isEmpty

/-- Python str() of such a value (as used in f-strings). -/
def PyVal.pystr : PyVal → String
  | .pnone => "None"
  | .pbool true => "True"
  | .pbool false => "False"
  | .pstr s => s

/-- The `(ok, stop_requested, err)` triple `_do_op` returns.  The second
and third components are PyVal because the expressive-op branches build
the triple as `_check_sdk_return(...) + (False,)`, i.e. `(ok, reason,
False)`: the reason lands in the stop slot and False in the err slot. -/
structure OpResult where
  ok : Bool
  stop : PyVal
  err : PyVal
deriving DecidableEq

/-- `_check_sdk_return` (lines 403-407). -/
def check_sdk_return (code : Option Int) (nm : String) : Bool × PyVal :=
  match code with
  | none => (true, .pnone)
  | some 0 => (true, .pnone)
  | some k => (false, .pstr (nm ++ "_failed_with_code_" ++ toString k))

/-- The check loop of `_interruptible_sleep` with n ticks left:
returns false as soon as the interrupt flag reads set. -/
def isleep_go (env : Env) : Nat → RunSt → Bool × RunSt
  | 0, st => (true, st)
  | n + 1, st =>
    let (b, st1) := intrCheck env st
    if b then (false, st1) else isleep_go env n st1

/-- `_interruptible_sleep` (lines 409-414); the duration is the next
sleep-tick budget of the environment. -/
def interruptible_sleep (env : Env) (st : RunSt) : Bool × RunSt :=
  isleep_go env (env.sleepTicks st.sleepIx) { st with sleepIx := st.sleepIx + 1 }

inductive WakeRes where
  | raised (msg : String)
  | failed (reason : String)
  | okDone
deriving DecidableEq

/-- `_wake_up_locomotion` (lines 416-422).  Its SDK calls are not
wrapped in their own try, so an exception propagates to `_do_op`'s
handler (`raised`). -/
def wake_up_locomotion (env : Env) (st : RunSt) : WakeRes × RunSt :=
  match sdkCall env .Move st with
  | (.exn m, st1) => (.raised m, st1)
  | (.ret _, st1) =>
    match interruptible_sleep env st1 with
    | (false, st2) => (.failed "interrupted_during_wake_up", st2)
    | (true, st2) =>
      match sdkCall env .StopMove st2 with
      | (.exn m, st3) => (.raised m, st3)
      | (.ret _, st3) => (.okDone, st3)

inductive MoveLoopRes where
  | fin (interrupted : Bool)
  | raisedL (msg : String)
deriving DecidableEq

/-- The while loop of `_do_move` with n ticks left: check the interrupt
flag, break if set, else issue Move (an exception escapes the loop to
the handler). -/
def do_move_loop (env : Env) : Nat → RunSt → MoveLoopRes × RunSt
  | 0, st => (.fin false, st)
  | n + 1, st =>
    let (b, st1) := intrCheck env st
    if b then (.fin true, st1)
    else
      match sdkCall env .Move st1 with
      | (.exn m, st2) => (.raisedL m, st2)
      | (.ret _, st2) => do_move_loop env n st2

/-- `_do_move` (lines 483-499).  The velocity and duration arguments are
not observable in the claims; the loop runs for the next move-tick
budget of the environment.  On any exception the handler invokes the
emergency brake and returns the caught message. -/
def do_move (env : Env) (st : RunSt) : OpResult × RunSt :=
  let n := env.moveTicks st.moveIx
  let st0 := { st with moveIx := st.moveIx + 1 }
  match do_move_loop env n st0 with
  | (.raisedL m, st1) => (⟨false, .pbool false, .pstr m⟩, emergency_brake env st1)
  | (.fin intr, st1) =>
    match sdkCall env .StopMove st1 with
    | (.exn m, st2) => (⟨false, .pbool false, .pstr m⟩, emergency_brake env st2)
    | (.ret _, st2) =>
      if intr then (⟨false, .pbool false, .pstr "interrupted"⟩, st2)
      else (⟨true, .pbool false, .pnone⟩, st2)

/-- The `self.CUSTOM_OPERATION_LIST` dict (lines 81-90) as a lookup. -/
def customLookup (op : String) : Option (List String) :=
  if op = "detected" then some ["hello"]
  else if op = "from0to1" then some ["turn_right", "turn_right", "forward_L"]
  else if op = "from1to2" then some ["turn_left", "turn_left", "turn_left_S", "turn_left_S", "forward_S", "turn_right_S", "turn_right_S"]
  else if op = "from2to0" then some ["turn_left_S", "turn_left", "turn_left", "forward_S", "turn_right_S", "turn_right", "turn_right"]
  else if op = "hi" then some ["hello"]
  else if op = "normal" then some ["stretch"]
  else if op = "heart" then some ["heart_"]
  else if op = "test_gesture" then some ["sit", "stand"]
  else none

/-- The same catalog as an association list (for stating catalog-level
facts); `customLookup` agrees with it entry by entry. -/
def customEntries : List (String × List String) :=
  [("detected", ["hello"]),
   ("from0to1", ["turn_right", "turn_right", "forward_L"]),
   ("from1to2", ["turn_left", "turn_left", "turn_left_S", "turn_left_S", "forward_S", "turn_right_S", "turn_right_S"]),
   ("from2to0", ["turn_left_S", "turn_left", "turn_left", "forward_S", "turn_right_S", "turn_right", "turn_right"]),
   ("hi", ["hello"]),
   ("normal", ["stretch"]),
   ("heart", ["heart_"]),
   ("test_gesture", ["sit", "stand"])]

def gesture_on_area_move_command : String := "from1to2"

def gesture_on_area_test : String := "test_gesture"

def othermove_gesture : List String := ["from2to0", "from0to1"]

/-- The ten directional/turn operation names, all dispatched to
`_do_move` (lines 457-466). -/
def moveOps : List String :=
  ["forward", "backward", "left", "right", "turn_left", "turn_right",
   "turn_left_S", "turn_right_S", "forward_L", "forward_S"]

/-- The `sit` branch (lines 440-443). -/
def sitOp (env : Env) (st : RunSt) : OpResult × RunSt :=
  match sdkCall env .StandDown st with
  | (.exn m, st1) => (⟨false, .pbool false, .pstr m⟩, st1)
  | (.ret code, st1) =>
    let (okb, reason) := check_sdk_return code "StandDown"
    let st2 := if okb then { st1 with isSitting := true } else st1
    (⟨okb, .pbool false, reason⟩, st2)

/-- The `stand` / `recovery_stand` branches (lines 444-455): on SDK
success the posture flag clears and locomotion is woken; a wake failure
fails the operation. -/
def standLike (env : Env) (c : SdkCall) (nm : String) (st : RunSt) : OpResult × RunSt :=
  match sdkCall env c st with
  | (.exn m, st1) => (⟨false, .pbool false, .pstr m⟩, st1)
  | (.ret code, st1) =>
    let (okb, reason) := check_sdk_return code nm
    if okb then
      let st2 := { st1 with isSitting := false }
      match wake_up_locomotion env st2 with
      | (.raised m, st3) => (⟨false, .pbool false, .pstr m⟩, st3)
      | (.failed r, st3) => (⟨false, .pbool false, .pstr r⟩, st3)
      | (.okDone, st3) => (⟨true, .pbool false, reason⟩, st3)
    else (⟨false, .pbool false, reason⟩, st1)

/-- The expressive-op branches (lines 468-475): note the result is
`_check_sdk_return(...) + (False,)`, so the reason occupies the
stop_requested slot and False the err slot. -/
def expressiveOp (env : Env) (c : SdkCall) (nm : String) (st : RunSt) : OpResult × RunSt :=
  match sdkCall env c st with
  | (.exn m, st1) => (⟨false, .pbool false, .pstr m⟩, st1)
  | (.ret code, st1) =>
    let (okb, reason) := check_sdk_return code nm
    (⟨okb, reason, .pbool false⟩, st1)

/-- The non-catalog dispatch of `_do_op` (lines 440-478), in source
order: postures, directional moves, expressive gestures, `stop`,
unknown. -/
def do_prim (env : Env) (op : String) (st : RunSt) : OpResult × RunSt :=
  if op = "sit" then sitOp env st
  else if op = "stand" then standLike env .StandUp "StandUp" st
  else if op = "recovery_stand" then standLike env .RecoveryStand "RecoveryStand" st
  else if op ∈ moveOps then do_move env st
  else if op = "damp" then expressiveOp env .Damp "Damp" st
  else if op = "balance_stand" then expressiveOp env .BalanceStand "BalanceStand" st
  else if op = "scrape" then expressiveOp env .Scrape "Scrape" st
  else if op = "hello" then expressiveOp env .Hello "Hello" st
  else if op = "stretch" then expressiveOp env .Stretch "Stretch" st
  else if op = "dance1" then expressiveOp env .Dance1 "Dance1" st
  else if op = "dance2" then expressiveOp env .Dance2 "Dance2" st
  else if op = "heart_" then expressiveOp env .Heart "Heart" st
  else if op = "stop" then (⟨false, .pbool true, .pstr "stopped_by_user"⟩, st)
  else (⟨false, .pbool false, .pstr ("unknown_op:" ++ op)⟩, st)

/-- The catalog-expansion loop of `_do_op` (lines 432-434): run the
constituents in order through the recursive dispatch `rec`,
short-circuiting on the first failure or stop request. -/
def runCustomElems (rec : String → RunSt → Option (OpResult × RunSt)) : List String → RunSt → Option (OpResult × RunSt)
  | [], st => some (⟨true, .pbool false, .pnone⟩, st)
  | e :: es, st =>
    match rec e st with
    | none => none
    | some (r, st1) => if !r.ok || r.stop.truthy then some (r, st1) else runCustomElems rec es st1

/-- The dispatch body of `_do_op` after the posture guard (lines
431-478): catalog expansion (with the gesture-gate side effects of
lines 435-437 on successful completion) or primitive dispatch. -/
def do_op_core (env : Env) (rec : String → RunSt → Option (OpResult × RunSt)) (op : String) (st : RunSt) : Option (OpResult × RunSt) :=
  match customLookup op with
  | some elems =>
    match runCustomElems rec elems st with
    | none => none
    | some (r, st1) =>
      if r.ok && !r.stop.truthy then
        let st2 :=
          if op = gesture_on_area_move_command ∨ op = gesture_on_area_test then { st1 with gestureSwitch := true }
          else if op ∈ othermove_gesture then { st1 with gestureSwitch := false }
          else st1
        some (⟨true, .pbool false, .pnone⟩, st2)
      else some (r, st1)
  | none => some (do_prim env op st)

/-- One unfolding of `_do_op` (lines 424-481): the posture guard
(lines 426-429) recursively stands up first when sitting and the
operation is not one of sit/stand/stop, then dispatches. -/
def do_op_step (env : Env) (rec : String → RunSt → Option (OpResult × RunSt)) (op : String) (st : RunSt) : Option (OpResult × RunSt) :=
  if st.isSitting && !(["sit", "stand", "stop"].contains op) then
    match rec "stand" st with
    | none => none
    | some (r, st1) =>
      if r.ok then do_op_core env rec op st1
      else some (⟨false, .pbool false, .pstr ("auto_stand_failed: " ++ r.err.pystr)⟩, st1)
  else do_op_core env rec op st

/-- `_do_op` with a recursion-depth budget.  The source recursion
reaches depth at most 3 (catalog entry, constituent, implicit stand),
which the totality theorem below makes precise. -/
def do_op (env : Env) : Nat → String → RunSt → Option (OpResult × RunSt)
  | 0 => fun _ _ => none
  | fuel + 1 => do_op_step env (do_op env fuel)

/-- The sequence runner's per-run log: executor state, the conducted
list and the per-step error-offset flags. -/
structure SeqSt where
  run : RunSt
  conducted : List String
  error_offset : List Bool
deriving DecidableEq

/-- `self.error_offset.extend([True] * max(0, len(sequence) - len(self.conducted)))`
as done on each abnormal exit of `_execute_sequence`. -/
def pad_error_offset (seqLen : Nat) (s : SeqSt) : SeqSt :=
  { s with error_offset := s.error_offset ++ List.replicate (seqLen - s.conducted.length) true }

/-- The op loop of `_execute_sequence` (lines 366-398): before each op
check the interrupt flag (brake, pad and report the interrupt reason if
set); run the op; log it and its outcome; brake, pad and return on a
stop request or failure; success when the list is exhausted.  The
speech preamble (lines 350-364) performs external I/O only and is
omitted. -/
def exec_go (env : Env) (intrReason : Option String) (seqLen : Nat) : List String → SeqSt → Option ((Bool × Option String) × SeqSt)
  | [], s => some ((true, none), s)
  | op :: rest, s =>
    let (b, run1) := intrCheck env s.run
    if b then
      some ((false, some (intrReason.getD "interrupted")),
        pad_error_offset seqLen { s with run := emergency_brake env run1 })
    else
      match do_op env 3 op run1 with
      | none => none
      | some (r, run2) =>
        let s2 : SeqSt := { run := run2, conducted := s.conducted ++ [op], error_offset := s.error_offset ++ [!r.ok] }
        if r.stop.truthy then
          some ((false, some "stopped_by_user"), pad_error_offset seqLen { s2 with run := emergency_brake env s2.run })
        else if !r.ok then
          some ((false, some ("op_error: " ++ r.err.pystr)), pad_error_offset seqLen { s2 with run := emergency_brake env s2.run })
        else exec_go env intrReason seqLen rest s2

/-- `_execute_sequence` on a fresh conducted/error-offset log, with the
interrupt reason the intake installed (None → "interrupted"). -/
def execute_sequence (env : Env) (intrReason : Option String) (seq : List String) (run0 : RunSt) : Option ((Bool × Option String) × SeqSt) :=
  exec_go env intrReason seq.length seq { run := run0, conducted := [], error_offset := [] }

/-- `_finalize_error_offset` (lines 513-517), applied by `_worker_loop`
to the run's log when publishing the result. -/
def finalize_error_offset (sequence : List String) (conducted : List String) (error_offset : List Bool) (result_ok : Bool) : List Bool :=
  if result_ok then List.replicate sequence.length false
  else error_offset ++ List.replicate (sequence.length - conducted.length) true

/-- The brake-count change one operation may make: none, or one
invocation accompanying a failed result; and none at all when no SDK
call raises. -/
def BrakeDelta (env : Env) (st st' : RunSt) (r : OpResult) : Prop :=
  (st'.brakes = st.brakes ∨ (st'.brakes = st.brakes + 1 ∧ r.ok = false)) ∧
  (NoRaise env → st'.brakes = st.brakes)

/-- A fresh executor state. -/
def runSt0 : RunSt :=
  { sdkIx := 0, intrIx := 0, moveIx := 0, sleepIx := 0,
    isSitting := false, gestureSwitch := false, trace := [], brakes := 0 }

/-- An environment whose every SDK call succeeds with code 0, whose
interrupt flag always reads clear, and whose timed loops get no ticks. -/
def envAllOk : Env :=
  { sdk := fun _ => .ret (some 0), intr := fun _ => false,
    moveTicks := fun _ => 0, sleepTicks := fun _ => 0 }

/-- A running controller state (otherwise fresh). -/
def stRunning : CtlSt := { defaultCtl with seq_running := true }

/-- An environment whose very first SDK call raises "boom" and all
later ones succeed; one tick per timed move loop. -/
def envBoom : Env :=
  { sdk := fun i => if i = 0 then .exn "boom" else .ret (some 0),
    intr := fun _ => false, moveTicks := fun _ => 1, sleepTicks := fun _ => 0 }

/-- All SDK calls succeed; two ticks per timed move loop. -/
def envTicks2 : Env :=
  { sdk := fun _ => .ret (some 0), intr := fun _ => false,
    moveTicks := fun _ => 2, sleepTicks := fun _ => 0 }

/-- Every SDK call returns failure code 1 (so StandUp fails). -/
def envStandFail : Env :=
  { sdk := fun _ => .ret (some 1), intr := fun _ => false,
    moveTicks := fun _ => 0, sleepTicks := fun _ => 0 }

/-- A fresh executor state with the robot sitting. -/
def sitSt : RunSt := { runSt0 with isSitting := true }

/-- Executor state after the failing run of `["stop"]` under `envAllOk`:
one emergency brake (three stop pulses). -/
def c2wRun : RunSt :=
  { sdkIx := 3, intrIx := 1, moveIx := 0, sleepIx := 0, isSitting := false,
    gestureSwitch := false, trace := [.StopMove, .StopMove, .StopMove], brakes := 1 }

/-- Executor state after `do_op envAllOk 3 "test_gesture" runSt0`. -/
def c3wRun : RunSt :=
  { sdkIx := 4, intrIx := 0, moveIx := 0, sleepIx := 1, isSitting := false,
    gestureSwitch := true, trace := [.StandDown, .StandUp, .Move, .StopMove], brakes := 0 }

/-- Executor state after the failed implicit stand from `sitSt` under
`envStandFail` (one StandUp call). -/
def c7st1 : RunSt :=
  { sdkIx := 1, intrIx := 0, moveIx := 0, sleepIx := 0, isSitting := true,
    gestureSwitch := false, trace := [.StandUp], brakes := 0 }

/-- Same, but after the sequence runner's pre-op interrupt check bumped
the interrupt cursor. -/
def c7st1b : RunSt :=
  { sdkIx := 1, intrIx := 1, moveIx := 0, sleepIx := 0, isSitting := true,
    gestureSwitch := false, trace := [.StandUp], brakes := 0 }

/- ======================= Helper lemmas ============================ -/

theorem asStrList_strings (S : List String) :
    asStrList (JVal.arr (S.map JAtom.jstr)) = some S := by
  have hall : ∀ (T : List String), (T.map JAtom.jstr).all isJStr = true := by
    intro T
    induction T with
    | nil => rfl
    | cons a t ih => simp [isJStr, ih]
  have hfm : ∀ (T : List String), (T.map JAtom.jstr).filterMap getJStr = T := by
    intro T
    induction T with
    | nil => rfl
    | cons a t ih =>
      simp only [List.map_cons, List.filterMap_cons, getJStr]
      rw [ih]
  simp [asStrList, hall S, hfm S]

theorem parse_movePayload (S : List String) :
    parse_payload_to_sequence (movePayload S) = some S := by
  simp [parse_payload_to_sequence, movePayload, asStrList_strings]

theorem preQueueState_movePayload (S : List String) (st : CtlSt) :
    preQueueState (movePayload S) st = st := by
  simp [preQueueState, movePayload, applySay]

theorem handle_move_pending (S : List String) (st : CtlSt) (hS : S ≠ []) :
    ((handle_main_payload (movePayload S) st).1).pending = [S] := by
  obtain ⟨q, qs, rfl⟩ := List.exists_cons_of_ne_nil hS
  simp only [handle_main_payload, parse_movePayload, preQueueState_movePayload]
  split
  · rfl
  · rfl

theorem applyCmd_core (st : CtlSt) (c : JAtom) :
    (applyCmd st c).pending = st.pending ∧ (applyCmd st c).interrupt = st.interrupt ∧
    (applyCmd st c).interrupt_reason = st.interrupt_reason ∧
    (applyCmd st c).seq_running = st.seq_running := by
  unfold applyCmd
  split_ifs <;> exact ⟨rfl, rfl, rfl, rfl⟩

theorem foldl_applyCmd_core : ∀ (xs : List JAtom) (st : CtlSt),
    (xs.foldl applyCmd st).pending = st.pending ∧
    (xs.foldl applyCmd st).interrupt = st.interrupt ∧
    (xs.foldl applyCmd st).interrupt_reason = st.interrupt_reason ∧
    (xs.foldl applyCmd st).seq_running = st.seq_running := by
  intro xs
  induction xs with
  | nil => intro st; exact ⟨rfl, rfl, rfl, rfl⟩
  | cons c cs ih =>
    intro st
    have h1 := applyCmd_core st c
    have h2 := ih (applyCmd st c)
    exact ⟨h2.1.trans h1.1, h2.2.1.trans h1.2.1, h2.2.2.1.trans h1.2.2.1, h2.2.2.2.trans h1.2.2.2⟩

theorem applySay_core (p : Payload) (st : CtlSt) :
    (applySay p st).pending = st.pending ∧ (applySay p st).interrupt = st.interrupt ∧
    (applySay p st).interrupt_reason = st.interrupt_reason ∧
    (applySay p st).seq_running = st.seq_running ∧
    (applySay p st).gesture_switch = st.gesture_switch := by
  unfold applySay
  split
  · split_ifs <;> exact ⟨rfl, rfl, rfl, rfl, rfl⟩
  · exact ⟨rfl, rfl, rfl, rfl, rfl⟩

theorem preQueueState_core (p : Payload) (st : CtlSt) :
    (preQueueState p st).pending = st.pending ∧ (preQueueState p st).interrupt = st.interrupt ∧
    (preQueueState p st).interrupt_reason = st.interrupt_reason ∧
    (preQueueState p st).seq_running = st.seq_running := by
  unfold preQueueState
  split
  next xs _ =>
    have h1 := foldl_applyCmd_core xs st
    have h2 := applySay_core p (xs.foldl applyCmd st)
    exact ⟨h2.1.trans h1.1, h2.2.1.trans h1.2.1, h2.2.2.1.trans h1.2.2.1, h2.2.2.2.1.trans h1.2.2.2⟩
  next =>
    have h2 := applySay_core p st
    exact ⟨h2.1, h2.2.1, h2.2.2.1, h2.2.2.2.1⟩

theorem applyCmd_gsw (st : CtlSt) (c : JAtom) (h : (applyCmd st c).gesture_switch = true) :
    st.gesture_switch = true ∨ c = .jstr "gesture_on" := by
  unfold applyCmd at h
  split_ifs at h with h1 h2 h3 h4 h5 h6 h7 h8
  · exact Or.inr h1
  · exact Or.inl h
  · exact Or.inl h
  · exact Or.inl h
  · exact Or.inl h
  · exact Or.inl h
  · exact Or.inl h
  · exact Or.inl h

theorem foldl_applyCmd_gsw : ∀ (xs : List JAtom) (st : CtlSt),
    (xs.foldl applyCmd st).gesture_switch = true →
    st.gesture_switch = true ∨ JAtom.jstr "gesture_on" ∈ xs := by
  intro xs
  induction xs with
  | nil => intro st h; exact Or.inl h
  | cons c cs ih =>
    intro st h
    rcases ih (applyCmd st c) h with h1 | h1
    · rcases applyCmd_gsw st c h1 with h2 | h2
      · exact Or.inl h2
      · subst h2; exact Or.inr (List.mem_cons_self _ _)
    · exact Or.inr (List.mem_cons_of_mem _ h1)

theorem preQueueState_gsw (p : Payload) (st : CtlSt)
    (h : (preQueueState p st).gesture_switch = true) :
    st.gesture_switch = true ∨ (∃ xs, p.command = some (JVal.arr xs) ∧ JAtom.jstr "gesture_on" ∈ xs) := by
  unfold preQueueState at h
  revert h
  split
  next xs heq =>
    intro h
    rw [(applySay_core p _).2.2.2.2] at h
    rcases foldl_applyCmd_gsw xs st h with h1 | h1
    · exact Or.inl h1
    · exact Or.inr ⟨xs, heq, h1⟩
  next =>
    intro h
    rw [(applySay_core p _).2.2.2.2] at h
    exact Or.inl h

/- ======================= Claims C4, C5, C6, C8 ==================== -/

/-- Claim C4: two well-formed directive-sourced motion payloads S1 then
S2, submitted before either runs, leave the pending queue holding
exactly S2: each motion directive clears the queue and replaces it. -/
theorem claim4_latest_wins (S1 S2 : List String) (st : CtlSt)
    (h2 : S2 ≠ []) (hrun : st.seq_running = false) :
    ((handle_main_payload (movePayload S2) ((handle_main_payload (movePayload S1) st).1)).1).pending = [S2] :=
  handle_move_pending S2 _ h2

theorem claim4_witness :
    ((handle_main_payload (movePayload ["sit"]) ((handle_main_payload (movePayload ["forward"]) defaultCtl).1)).1).pending = [["sit"]] :=
  claim4_latest_wins ["forward"] ["sit"] defaultCtl (by decide) rfl

/-- Claim C5 counterexample: a well-formed motion payload arriving while
a sequence is running does NOT always leave reason
"interrupted_by_new_command": if the signal is already set (here by
`shutdown`), the handler leaves the old reason in place. -/
theorem claim5_counterexample_reason_not_overwritten :
    (shutdown_signal stRunning).seq_running = true ∧
    (shutdown_signal stRunning).interrupt = true ∧
    ((handle_main_payload (movePayload ["forward"]) (shutdown_signal stRunning)).1).interrupt_reason = some "shutdown" ∧
    ¬ ((handle_main_payload (movePayload ["forward"]) (shutdown_signal stRunning)).1).interrupt_reason = some "interrupted_by_new_command" := by
  refine ⟨rfl, rfl, rfl, ?_⟩
  decide

/-- Claim C5 (amended): on a running-state arrival of a well-formed
motion payload the interruption signal is set afterwards; the reason is
set to "interrupted_by_new_command" only when the signal was not
already set, and is left unchanged when it was. -/
theorem claim5_amended_interrupt_on_running (S : List String) (st : CtlSt)
    (hS : S ≠ []) (hrun : st.seq_running = true) :
    ((handle_main_payload (movePayload S) st).1).interrupt = true ∧
    (st.interrupt = false →
      ((handle_main_payload (movePayload S) st).1).interrupt_reason = some "interrupted_by_new_command") ∧
    (st.interrupt = true →
      ((handle_main_payload (movePayload S) st).1).interrupt_reason = st.interrupt_reason) := by
  obtain ⟨q, qs, rfl⟩ := List.exists_cons_of_ne_nil hS
  simp only [handle_main_payload, parse_movePayload, preQueueState_movePayload]
  cases hI : st.interrupt <;> simp [hrun, hI]

theorem claim5_witness :
    ((handle_main_payload (movePayload ["forward"]) stRunning).1).interrupt = true ∧
    ((handle_main_payload (movePayload ["forward"]) stRunning).1).interrupt_reason = some "interrupted_by_new_command" := by
  have h := claim5_amended_interrupt_on_running ["forward"] stRunning (by decide) rfl
  exact ⟨h.1, h.2.1 rfl⟩

/-- Claim C6 counterexample: (a) a payload with no recognized keys is
rejected silently, not logged; (b) a payload whose `move` entry is not
a list of strings still has its accompanying directives applied
(speaker_on flips the speech switch), so state IS mutated. -/
theorem claim6_counterexample_side_effects :
    (handle_main_payload { command := none, move := none, say := none } defaultCtl).2 = LogOut.quiet ∧
    ((handle_main_payload { command := some (.arr [.jstr "speaker_on"]), move := some (.atom (.jnum 42)), say := none } defaultCtl).1).saying_switch = true ∧
    defaultCtl.saying_switch = false := by
  refine ⟨rfl, rfl, rfl⟩

/-- Claim C6 (amended): a malformed payload (no recognized keys, or a
`move` entry that is not a list of operation-name strings) never
mutates the pending queue, the interruption signal or the interruption
reason; accompanying control directives and say strings in the same
payload are still applied, and a payload with no recognized keys is
rejected without the bad-payload log. -/
theorem claim6_amended_queue_untouched (p : Payload) (st : CtlSt) (hm : MalformedPayload p) :
    ((handle_main_payload p st).1).pending = st.pending ∧
    ((handle_main_payload p st).1).interrupt = st.interrupt ∧
    ((handle_main_payload p st).1).interrupt_reason = st.interrupt_reason := by
  have hcore := preQueueState_core p st
  rcases hm with ⟨hc, hmv, hs⟩ | ⟨v, hmv, hnone⟩
  · have hparse : parse_payload_to_sequence p = none := by
      simp [parse_payload_to_sequence, hmv, hc]
    simp only [handle_main_payload, hparse, hmv, hc]
    exact ⟨hcore.1, hcore.2.1, hcore.2.2.1⟩
  · have hparse : parse_payload_to_sequence p = none := by
      simp [parse_payload_to_sequence, hmv, hnone]
    simp only [handle_main_payload, hparse, hmv]
    exact ⟨hcore.1, hcore.2.1, hcore.2.2.1⟩

theorem claim6_witness :
    ((handle_main_payload { command := none, move := some (.atom (.jnum 7)), say := none } defaultCtl).1).pending = defaultCtl.pending ∧
    ((handle_main_payload { command := none, move := some (.atom (.jnum 7)), say := none } defaultCtl).1).interrupt = defaultCtl.interrupt ∧
    ((handle_main_payload { command := none, move := some (.atom (.jnum 7)), say := none } defaultCtl).1).interrupt_reason = defaultCtl.interrupt_reason :=
  claim6_amended_queue_untouched _ defaultCtl (Or.inr ⟨.atom (.jnum 7), rfl, rfl⟩)

/-- Claim C8 counterexample: with the gesture handler's idle check and
its append in separate critical sections (as in the source), a
directive submission interleaved between them yields a queue of two
entries, so "queue length at most 1 after any interleaving" fails. -/
theorem claim8_counterexample_interleaving :
    qInit.pending.length = 0 ∧
    (([QStep.gestureCheck, QStep.directive ["sit"], QStep.gestureAppend ["hello"]].foldl
        (fun st a => qstep a st) qInit).pending.length = 2) := by
  refine ⟨rfl, rfl⟩

theorem astep_inv (a : AStep) (st : QSt) (hlen : st.pending.length ≤ 1) (harm : st.armed = false) :
    (astep a st).pending.length ≤ 1 ∧ (astep a st).armed = false := by
  obtain ⟨pend, run, gsw, armed⟩ := st
  cases a <;> cases run <;> cases gsw <;> cases armed <;> cases pend <;>
    simp_all [astep, qstep]

/-- Claim C8 (amended): directive submissions always leave exactly one
pending entry, and when each gesture submission's idle check and append
run atomically (no submission interleaved between the two critical
sections) the pending queue never exceeds one entry from any start with
at most one entry; as written the claim fails because the check and the
append are separate critical sections. -/
theorem claim8_amended_atomic_invariant (steps : List AStep) (st0 : QSt)
    (hlen : st0.pending.length ≤ 1) (harm : st0.armed = false) :
    ((steps.foldl (fun st a => astep a st) st0).pending.length ≤ 1) := by
  induction steps generalizing st0 with
  | nil => exact hlen
  | cons a rest ih =>
    have h := astep_inv a st0 hlen harm
    exact ih (astep a st0) h.1 h.2

theorem claim8_witness :
    (([AStep.gestureAtomic ["hello"], AStep.directive ["sit"]].foldl
        (fun st a => astep a st) qInit).pending.length ≤ 1) :=
  claim8_amended_atomic_invariant [AStep.gestureAtomic ["hello"], AStep.directive ["sit"]] qInit (by decide) rfl

/- =============== Totality of the recursive dispatch =============== -/

theorem stand_not_custom : customLookup "stand" = none := rfl

theorem stand_some (env : Env) (n : Nat) (st : RunSt) :
    (do_op env (n + 1) "stand" st).isSome = true := by
  have hc : (["sit", "stand", "stop"].contains "stand") = true := rfl
  show (do_op_step env (do_op env n) "stand" st).isSome = true
  unfold do_op_step
  rw [hc]
  simp only [Bool.not_true, Bool.and_false, Bool.false_eq_true, if_false]
  simp [do_op_core, stand_not_custom]

theorem noncustom_some (env : Env) (op : String) (hop : customLookup op = none)
    (n : Nat) (st : RunSt) : (do_op env (n + 2) op st).isSome = true := by
  show (do_op_step env (do_op env (n + 1)) op st).isSome = true
  unfold do_op_step
  by_cases hg : (st.isSitting && !(["sit", "stand", "stop"].contains op)) = true
  · rw [if_pos hg]
    have hs := stand_some env n st
    cases heq : do_op env (n + 1) "stand" st with
    | none => rw [heq] at hs; exact absurd hs (by simp)
    | some p =>
      obtain ⟨r, st1⟩ := p
      by_cases hok : r.ok = true
      · simp only [hok, if_true]
        simp [do_op_core, hop]
      · simp [hok]
  · rw [if_neg hg]
    simp [do_op_core, hop]

theorem runCustomElems_some (rec : String → RunSt → Option (OpResult × RunSt)) :
    ∀ (elems : List String), (∀ e ∈ elems, ∀ st0 : RunSt, (rec e st0).isSome = true) →
    ∀ st : RunSt, (runCustomElems rec elems st).isSome = true := by
  intro elems
  induction elems with
  | nil => intro _ st; rfl
  | cons e es ih =>
    intro hall st
    have he := hall e (List.mem_cons_self _ _) st
    simp only [runCustomElems]
    cases heq : rec e st with
    | none => rw [heq] at he; exact absurd he (by simp)
    | some p =>
      obtain ⟨r, st1⟩ := p
      by_cases hb : (!r.ok || r.stop.truthy) = true
      · simp [hb]
      · simp only [hb, if_false]
        exact ih (fun x hx st0 => hall x (List.mem_cons_of_mem _ hx) st0) st1

theorem lookup_custom_elems (op : String) (elems : List String)
    (h : customLookup op = some elems) :
    ∀ e ∈ elems, customLookup e = none ∧
      e ≠ gesture_on_area_move_command ∧ e ≠ gesture_on_area_test := by
  unfold customLookup at h
  split_ifs at h <;>
    first
      | (injection h with h; subst h; decide)
      | (exact absurd h (by simp))

theorem core2_some (env : Env) (op : String) (st : RunSt) :
    (do_op_core env (do_op env 2) op st).isSome = true := by
  cases hl : customLookup op with
  | none => simp [do_op_core, hl]
  | some elems =>
    have hel := lookup_custom_elems op elems hl
    have hrun := runCustomElems_some (do_op env 2) elems
      (fun e he st0 => noncustom_some env e (hel e he).1 0 st0) st
    cases heq : runCustomElems (do_op env 2) elems st with
    | none => rw [heq] at hrun; exact absurd hrun (by simp)
    | some p =>
      obtain ⟨r2, st2⟩ := p
      simp only [do_op_core, hl, heq]
      split <;> simp

theorem do_op3_some (env : Env) (op : String) (st : RunSt) :
    (do_op env 3 op st).isSome = true := by
  show (do_op_step env (do_op env 2) op st).isSome = true
  unfold do_op_step
  by_cases hg : (st.isSitting && !(["sit", "stand", "stop"].contains op)) = true
  · rw [if_pos hg]
    have hs := stand_some env 1 st
    cases heq : do_op env 2 "stand" st with
    | none => rw [heq] at hs; exact absurd hs (by simp)
    | some p =>
      obtain ⟨r, st1⟩ := p
      by_cases hok : r.ok = true
      · simp only [hok, if_true]
        exact core2_some env op st1
      · simp [hok]
  · rw [if_neg hg]
    exact core2_some env op st

/- =============== Brake and gesture-gate bookkeeping =============== -/

theorem isleep_go_core (env : Env) : ∀ (n : Nat) (st : RunSt),
    (isleep_go env n st).2.brakes = st.brakes ∧
    (isleep_go env n st).2.gestureSwitch = st.gestureSwitch := by
  intro n
  induction n with
  | zero => intro st; exact ⟨rfl, rfl⟩
  | succ n ih =>
    intro st
    simp only [isleep_go, intrCheck]
    cases hb : env.intr st.intrIx
    · simp only [Bool.false_eq_true, if_false]
      exact ih _
    · exact ⟨rfl, rfl⟩

theorem interruptible_sleep_core (env : Env) (st : RunSt) :
    (interruptible_sleep env st).2.brakes = st.brakes ∧
    (interruptible_sleep env st).2.gestureSwitch = st.gestureSwitch := by
  unfold interruptible_sleep
  exact isleep_go_core env _ _

theorem wake_core (env : Env) (st : RunSt) :
    (wake_up_locomotion env st).2.brakes = st.brakes ∧
    (wake_up_locomotion env st).2.gestureSwitch = st.gestureSwitch := by
  unfold wake_up_locomotion
  split
  · rename_i m st1 heq1
    exact ⟨(congrArg (fun p => p.2.brakes) heq1).symm,
      (congrArg (fun p => p.2.gestureSwitch) heq1).symm⟩
  · rename_i code st1 heq1
    have hst1b : st1.brakes = st.brakes :=
      (congrArg (fun p => p.2.brakes) heq1).symm
    have hst1g : st1.gestureSwitch = st.gestureSwitch :=
      (congrArg (fun p => p.2.gestureSwitch) heq1).symm
    have h2b := (interruptible_sleep_core env st1).1
    have h2g := (interruptible_sleep_core env st1).2
    split
    · rename_i st2 heq2
      rw [heq2] at h2b h2g
      exact ⟨h2b.trans hst1b, h2g.trans hst1g⟩
    · rename_i st2 heq2
      rw [heq2] at h2b h2g
      split
      · rename_i m st3 heq3
        exact ⟨(congrArg (fun p => p.2.brakes) heq3).symm.trans (h2b.trans hst1b),
          (congrArg (fun p => p.2.gestureSwitch) heq3).symm.trans (h2g.trans hst1g)⟩
      · rename_i code3 st3 heq3
        exact ⟨(congrArg (fun p => p.2.brakes) heq3).symm.trans (h2b.trans hst1b),
          (congrArg (fun p => p.2.gestureSwitch) heq3).symm.trans (h2g.trans hst1g)⟩

theorem do_move_loop_core (env : Env) : ∀ (n : Nat) (st : RunSt),
    (do_move_loop env n st).2.brakes = st.brakes ∧
    (do_move_loop env n st).2.gestureSwitch = st.gestureSwitch ∧
    (NoRaise env → ∀ m, (do_move_loop env n st).1 ≠ .raisedL m) := by
  intro n
  induction n with
  | zero =>
    intro st
    exact ⟨rfl, rfl, fun _ m h => by cases h⟩
  | succ n ih =>
    intro st
    simp only [do_move_loop, intrCheck, sdkCall]
    cases hb : env.intr st.intrIx
    · simp only [Bool.false_eq_true, if_false]
      cases h1 : env.sdk ({ st with intrIx := st.intrIx + 1 } : RunSt).sdkIx with
      | exn m =>
        refine ⟨rfl, rfl, fun hnr m2 h => ?_⟩
        have := hnr st.sdkIx
        rw [show st.sdkIx = ({ st with intrIx := st.intrIx + 1 } : RunSt).sdkIx from rfl, h1] at this
        exact absurd this (by simp [SdkRes.isExn])
      | ret code => exact ih _
    · exact ⟨rfl, rfl, fun _ m h => by cases h⟩

theorem do_move_spec (env : Env) (st : RunSt) :
    (do_move env st).2.gestureSwitch = st.gestureSwitch ∧
    BrakeDelta env st (do_move env st).2 (do_move env st).1 := by
  unfold do_move
  obtain ⟨hb, hg, hnr⟩ := do_move_loop_core env (env.moveTicks st.moveIx)
    { st with moveIx := st.moveIx + 1 }
  cases hloop : do_move_loop env (env.moveTicks st.moveIx) { st with moveIx := st.moveIx + 1 } with
  | mk res st1 =>
    rw [hloop] at hb hg hnr
    simp only [hloop]
    have hb1 : st1.brakes = st.brakes := hb
    have hg1 : st1.gestureSwitch = st.gestureSwitch := hg
    cases res with
    | raisedL m =>
      refine ⟨hg1, Or.inr ⟨by simp [emergency_brake, sdkCall, hb1], rfl⟩, fun h => ?_⟩
      exact absurd rfl (hnr h m)
    | fin b =>
      simp only [sdkCall]
      cases h2 : env.sdk st1.sdkIx with
      | exn m =>
        refine ⟨hg1, Or.inr ⟨by simp [emergency_brake, sdkCall, hb1], rfl⟩, fun h => ?_⟩
        have := h st1.sdkIx
        rw [h2] at this
        exact absurd this (by simp [SdkRes.isExn])
      | ret code =>
        cases b
        · exact ⟨hg1, Or.inl hb1, fun _ => hb1⟩
        · exact ⟨hg1, Or.inl hb1, fun _ => hb1⟩

theorem sitOp_core (env : Env) (st : RunSt) :
    (sitOp env st).2.brakes = st.brakes ∧ (sitOp env st).2.gestureSwitch = st.gestureSwitch := by
  unfold sitOp
  simp only [sdkCall]
  cases h : env.sdk st.sdkIx with
  | exn m => exact ⟨rfl, rfl⟩
  | ret code =>
    cases hc : check_sdk_return code "StandDown" with
    | mk okb reason =>
      cases okb <;> simp [hc]

theorem standLike_core (env : Env) (c : SdkCall) (nm : String) (st : RunSt) :
    (standLike env c nm st).2.brakes = st.brakes ∧
    (standLike env c nm st).2.gestureSwitch = st.gestureSwitch := by
  unfold standLike
  simp only [sdkCall]
  cases h : env.sdk st.sdkIx with
  | exn m => exact ⟨rfl, rfl⟩
  | ret code =>
    cases hc : check_sdk_return code nm with
    | mk okb reason =>
      cases okb
      · simp [hc]
      · simp only [hc, if_true]
        obtain ⟨hwb, hwg⟩ := wake_core env
          { sdkIx := st.sdkIx + 1, intrIx := st.intrIx, moveIx := st.moveIx,
            sleepIx := st.sleepIx, isSitting := false, gestureSwitch := st.gestureSwitch,
            trace := st.trace ++ [c], brakes := st.brakes }
        cases hw : wake_up_locomotion env
            { sdkIx := st.sdkIx + 1, intrIx := st.intrIx, moveIx := st.moveIx,
              sleepIx := st.sleepIx, isSitting := false, gestureSwitch := st.gestureSwitch,
              trace := st.trace ++ [c], brakes := st.brakes } with
        | mk wres st3 =>
          rw [hw] at hwb hwg
          cases wres <;> simp_all

theorem expressiveOp_core (env : Env) (c : SdkCall) (nm : String) (st : RunSt) :
    (expressiveOp env c nm st).2.brakes = st.brakes ∧
    (expressiveOp env c nm st).2.gestureSwitch = st.gestureSwitch := by
  unfold expressiveOp
  simp only [sdkCall]
  cases h : env.sdk st.sdkIx with
  | exn m => exact ⟨rfl, rfl⟩
  | ret code =>
    cases hc : check_sdk_return code nm with
    | mk okb reason => exact ⟨rfl, rfl⟩

theorem core_to_spec {env : Env} {st : RunSt} {p : OpResult × RunSt}
    (h : p.2.brakes = st.brakes ∧ p.2.gestureSwitch = st.gestureSwitch) :
    p.2.gestureSwitch = st.gestureSwitch ∧ BrakeDelta env st p.2 p.1 :=
  ⟨h.2, Or.inl h.1, fun _ => h.1⟩

set_option maxHeartbeats 1000000 in
theorem do_prim_spec (env : Env) (op : String) (st : RunSt) :
    (do_prim env op st).2.gestureSwitch = st.gestureSwitch ∧
    BrakeDelta env st (do_prim env op st).2 (do_prim env op st).1 := by
  unfold do_prim
  by_cases h1 : op = "sit"
  · rw [if_pos h1]; exact core_to_spec (sitOp_core env st)
  rw [if_neg h1]
  by_cases h2 : op = "stand"
  · rw [if_pos h2]; exact core_to_spec (standLike_core env .StandUp "StandUp" st)
  rw [if_neg h2]
  by_cases h3 : op = "recovery_stand"
  · rw [if_pos h3]; exact core_to_spec (standLike_core env .RecoveryStand "RecoveryStand" st)
  rw [if_neg h3]
  by_cases h4 : op ∈ moveOps
  · rw [if_pos h4]; exact do_move_spec env st
  rw [if_neg h4]
  by_cases h5 : op = "damp"
  · rw [if_pos h5]; exact core_to_spec (expressiveOp_core env .Damp "Damp" st)
  rw [if_neg h5]
  by_cases h6 : op = "balance_stand"
  · rw [if_pos h6]; exact core_to_spec (expressiveOp_core env .BalanceStand "BalanceStand" st)
  rw [if_neg h6]
  by_cases h7 : op = "scrape"
  · rw [if_pos h7]; exact core_to_spec (expressiveOp_core env .Scrape "Scrape" st)
  rw [if_neg h7]
  by_cases h8 : op = "hello"
  · rw [if_pos h8]; exact core_to_spec (expressiveOp_core env .Hello "Hello" st)
  rw [if_neg h8]
  by_cases h9 : op = "stretch"
  · rw [if_pos h9]; exact core_to_spec (expressiveOp_core env .Stretch "Stretch" st)
  rw [if_neg h9]
  by_cases h10 : op = "dance1"
  · rw [if_pos h10]; exact core_to_spec (expressiveOp_core env .Dance1 "Dance1" st)
  rw [if_neg h10]
  by_cases h11 : op = "dance2"
  · rw [if_pos h11]; exact core_to_spec (expressiveOp_core env .Dance2 "Dance2" st)
  rw [if_neg h11]
  by_cases h12 : op = "heart_"
  · rw [if_pos h12]; exact core_to_spec (expressiveOp_core env .Heart "Heart" st)
  rw [if_neg h12]
  by_cases h13 : op = "stop"
  · rw [if_pos h13]; exact ⟨rfl, Or.inl rfl, fun _ => rfl⟩
  rw [if_neg h13]
  exact ⟨rfl, Or.inl rfl, fun _ => rfl⟩

theorem brakeDelta_refl (env : Env) (st : RunSt) (r : OpResult) : BrakeDelta env st st r :=
  ⟨Or.inl rfl, fun _ => rfl⟩

theorem brakeDelta_ok_eq {env : Env} {st st1 : RunSt} {r1 : OpResult}
    (h : BrakeDelta env st st1 r1) (hok : r1.ok = true) : st1.brakes = st.brakes := by
  rcases h.1 with h1 | ⟨_, hfalse⟩
  · exact h1
  · rw [hok] at hfalse; cases hfalse

theorem brakeDelta_trans_of_ok {env : Env} {st st1 st2 : RunSt} {r1 r2 : OpResult}
    (h1 : BrakeDelta env st st1 r1) (hok : r1.ok = true) (h2 : BrakeDelta env st1 st2 r2) :
    BrakeDelta env st st2 r2 := by
  have hb : st1.brakes = st.brakes := brakeDelta_ok_eq h1 hok
  constructor
  · rcases h2.1 with h | ⟨h, ho⟩
    · exact Or.inl (h.trans hb)
    · exact Or.inr ⟨by rw [h, hb], ho⟩
  · intro hnr
    rw [h2.2 hnr, hb]

theorem brakeDelta_retag {env : Env} {st st1 : RunSt} {r r2 : OpResult}
    (h : BrakeDelta env st st1 r) (hok : r2.ok = false) : BrakeDelta env st st1 r2 := by
  constructor
  · rcases h.1 with h1 | ⟨h1, _⟩
    · exact Or.inl h1
    · exact Or.inr ⟨h1, hok⟩
  · exact h.2

theorem runCustomElems_spec (env : Env) (rec : String → RunSt → Option (OpResult × RunSt)) :
    ∀ (elems : List String),
    (∀ e ∈ elems, ∀ (st0 : RunSt) (r0 : OpResult) (st0' : RunSt), rec e st0 = some (r0, st0') →
      (st0'.gestureSwitch = true → st0.gestureSwitch = true) ∧ BrakeDelta env st0 st0' r0) →
    ∀ (st : RunSt) (r : OpResult) (st' : RunSt), runCustomElems rec elems st = some (r, st') →
    (st'.gestureSwitch = true → st.gestureSwitch = true) ∧ BrakeDelta env st st' r := by
  intro elems
  induction elems with
  | nil =>
    intro _ st r st' h
    simp only [runCustomElems, Option.some.injEq, Prod.mk.injEq] at h
    obtain ⟨hr, hst⟩ := h
    subst hst
    exact ⟨fun hg => hg, brakeDelta_refl env st r⟩
  | cons e es ih =>
    intro hall st r st' h
    simp only [runCustomElems] at h
    cases heq : rec e st with
    | none => rw [heq] at h; cases h
    | some p =>
      obtain ⟨r1, st1⟩ := p
      simp only [heq] at h
      have h1 := hall e (List.mem_cons_self _ _) st r1 st1 heq
      by_cases hb : (!r1.ok || r1.stop.truthy) = true
      · rw [if_pos hb] at h
        simp only [Option.some.injEq, Prod.mk.injEq] at h
        obtain ⟨hr, hst⟩ := h
        subst hr; subst hst
        exact h1
      · rw [if_neg hb] at h
        have h2 := ih (fun x hx => hall x (List.mem_cons_of_mem _ hx)) st1 r st' h
        have hok : r1.ok = true := by
          cases hr1 : r1.ok
          · rw [hr1] at hb; simp at hb
          · rfl
        exact ⟨fun hg => h1.1 (h2.1 hg), brakeDelta_trans_of_ok h1.2 hok h2.2⟩

theorem do_op_core_spec (env : Env) (rec : String → RunSt → Option (OpResult × RunSt))
    (hrec : ∀ (e : String) (st0 : RunSt) (r0 : OpResult) (st0' : RunSt), rec e st0 = some (r0, st0') →
      (st0'.gestureSwitch = true → st0.gestureSwitch = true ∨
        e = gesture_on_area_move_command ∨ e = gesture_on_area_test) ∧
      BrakeDelta env st0 st0' r0)
    (op : String) (st : RunSt) (r : OpResult) (st' : RunSt)
    (h : do_op_core env rec op st = some (r, st')) :
    (st'.gestureSwitch = true → st.gestureSwitch = true ∨
      op = gesture_on_area_move_command ∨ op = gesture_on_area_test) ∧
    BrakeDelta env st st' r := by
  unfold do_op_core at h
  cases hl : customLookup op with
  | none =>
    simp only [hl] at h
    simp only [Option.some.injEq] at h
    have hp := do_prim_spec env op st
    rw [h] at hp
    exact ⟨fun hg => Or.inl (hp.1.symm.trans hg), hp.2⟩
  | some elems =>
    simp only [hl] at h
    have hel := lookup_custom_elems op elems hl
    have hrecp : ∀ e ∈ elems, ∀ (st0 : RunSt) (r0 : OpResult) (st0' : RunSt),
        rec e st0 = some (r0, st0') →
        (st0'.gestureSwitch = true → st0.gestureSwitch = true) ∧ BrakeDelta env st0 st0' r0 := by
      intro e he st0 r0 st0' hre
      have hx := hrec e st0 r0 st0' hre
      refine ⟨fun hg => ?_, hx.2⟩
      rcases hx.1 hg with h1 | h1 | h1
      · exact h1
      · exact absurd h1 (hel e he).2.1
      · exact absurd h1 (hel e he).2.2
    cases heq : runCustomElems rec elems st with
    | none => rw [heq] at h; cases h
    | some p =>
      obtain ⟨r1, st1⟩ := p
      simp only [heq] at h
      have hloop := runCustomElems_spec env rec elems hrecp st r1 st1 heq
      by_cases hcomplete : (r1.ok && !r1.stop.truthy) = true
      · rw [if_pos hcomplete] at h
        have hok : r1.ok = true := by
          cases hr : r1.ok
          · rw [hr] at hcomplete; simp at hcomplete
          · rfl
        have hsteq : st1.brakes = st.brakes := brakeDelta_ok_eq hloop.2 hok
        simp only [Option.some.injEq, Prod.mk.injEq] at h
        obtain ⟨hr, hst⟩ := h
        subst hr
        by_cases hname : (op = gesture_on_area_move_command ∨ op = gesture_on_area_test)
        · rw [if_pos hname] at hst
          subst hst
          exact ⟨fun _ => Or.inr hname, ⟨Or.inl hsteq, fun _ => hsteq⟩⟩
        · rw [if_neg hname] at hst
          by_cases hother : op ∈ othermove_gesture
          · rw [if_pos hother] at hst
            subst hst
            refine ⟨fun hg => absurd hg ?_, ⟨Or.inl hsteq, fun _ => hsteq⟩⟩
            simp
          · rw [if_neg hother] at hst
            subst hst
            exact ⟨fun hg => Or.inl (hloop.1 hg), ⟨Or.inl hsteq, fun _ => hsteq⟩⟩
      · rw [if_neg hcomplete] at h
        simp only [Option.some.injEq, Prod.mk.injEq] at h
        obtain ⟨hr, hst⟩ := h
        subst hr; subst hst
        exact ⟨fun hg => Or.inl (hloop.1 hg), hloop.2⟩

theorem do_op_spec (env : Env) : ∀ (fuel : Nat) (op : String) (st : RunSt) (r : OpResult) (st' : RunSt),
    do_op env fuel op st = some (r, st') →
    (st'.gestureSwitch = true → st.gestureSwitch = true ∨
      op = gesture_on_area_move_command ∨ op = gesture_on_area_test) ∧
    BrakeDelta env st st' r := by
  intro fuel
  induction fuel with
  | zero => intro op st r st' h; cases h
  | succ fuel ih =>
    intro op st r st' h
    have hstep : do_op_step env (do_op env fuel) op st = some (r, st') := h
    unfold do_op_step at hstep
    by_cases hg : (st.isSitting && !(["sit", "stand", "stop"].contains op)) = true
    · rw [if_pos hg] at hstep
      cases heq : do_op env fuel "stand" st with
      | none => rw [heq] at hstep; cases hstep
      | some p =>
        obtain ⟨r0, st1⟩ := p
        simp only [heq] at hstep
        have hstand := ih "stand" st r0 st1 heq
        have hstandg : st1.gestureSwitch = true → st.gestureSwitch = true := by
          intro hx
          rcases hstand.1 hx with h1 | h1 | h1
          · exact h1
          · exact absurd h1 (by decide)
          · exact absurd h1 (by decide)
        by_cases hok : r0.ok = true
        · rw [if_pos hok] at hstep
          have hcore := do_op_core_spec env (do_op env fuel) ih op st1 r st' hstep
          refine ⟨fun hx => ?_, brakeDelta_trans_of_ok hstand.2 hok hcore.2⟩
          rcases hcore.1 hx with h1 | h1 | h1
          · exact Or.inl (hstandg h1)
          · exact Or.inr (Or.inl h1)
          · exact Or.inr (Or.inr h1)
        · rw [if_neg hok] at hstep
          simp only [Option.some.injEq, Prod.mk.injEq] at hstep
          obtain ⟨hr, hst⟩ := hstep
          subst hr; subst hst
          exact ⟨fun hx => Or.inl (hstandg hx), brakeDelta_retag hstand.2 rfl⟩
    · rw [if_neg hg] at hstep
      exact do_op_core_spec env (do_op env fuel) ih op st r st' hstep

theorem exec_go_spec (env : Env) (intrReason : Option String) (seqLen : Nat) :
    ∀ (ops : List String) (s : SeqSt) (res : Bool × Option String) (s' : SeqSt),
    exec_go env intrReason seqLen ops s = some (res, s') →
    (res.1 = true → s'.run.brakes = s.run.brakes) ∧
    (res.1 = false → (s'.run.brakes = s.run.brakes + 1 ∨ s'.run.brakes = s.run.brakes + 2) ∧
      (NoRaise env → s'.run.brakes = s.run.brakes + 1)) := by
  intro ops
  induction ops with
  | nil =>
    intro s res s' h
    simp only [exec_go, Option.some.injEq, Prod.mk.injEq] at h
    obtain ⟨hr, hs⟩ := h
    subst hs
    refine ⟨fun _ => rfl, fun hf => ?_⟩
    rw [← hr] at hf
    cases hf
  | cons op rest ih =>
    intro s res s' h
    simp only [exec_go, intrCheck] at h
    by_cases hb : env.intr s.run.intrIx = true
    · rw [if_pos hb] at h
      simp only [Option.some.injEq, Prod.mk.injEq] at h
      obtain ⟨hr, hs⟩ := h
      subst hs
      constructor
      · intro ht; rw [← hr] at ht; cases ht
      · intro _
        exact ⟨Or.inl rfl, fun _ => rfl⟩
    · rw [if_neg hb] at h
      cases hdo : do_op env 3 op ({ s.run with intrIx := s.run.intrIx + 1 }) with
      | none => rw [hdo] at h; cases h
      | some p =>
        obtain ⟨r, run2⟩ := p
        simp only [hdo] at h
        have hdelta := (do_op_spec env 3 op ({ s.run with intrIx := s.run.intrIx + 1 }) r run2 hdo).2
        by_cases hstop : r.stop.truthy = true
        · rw [if_pos hstop] at h
          simp only [Option.some.injEq, Prod.mk.injEq] at h
          obtain ⟨hr, hs⟩ := h
          subst hs
          constructor
          · intro ht; rw [← hr] at ht; cases ht
          · intro _
            constructor
            · rcases hdelta.1 with hd | ⟨hd, _⟩
              · exact Or.inl (by show run2.brakes + 1 = s.run.brakes + 1; rw [hd])
              · exact Or.inr (by show run2.brakes + 1 = s.run.brakes + 2; rw [hd])
            · intro hnr
              have hd := hdelta.2 hnr
              show run2.brakes + 1 = s.run.brakes + 1
              rw [hd]
        · rw [if_neg hstop] at h
          by_cases hok : (!r.ok) = true
          · rw [if_pos hok] at h
            simp only [Option.some.injEq, Prod.mk.injEq] at h
            obtain ⟨hr, hs⟩ := h
            subst hs
            constructor
            · intro ht; rw [← hr] at ht; cases ht
            · intro _
              constructor
              · rcases hdelta.1 with hd | ⟨hd, _⟩
                · exact Or.inl (by show run2.brakes + 1 = s.run.brakes + 1; rw [hd])
                · exact Or.inr (by show run2.brakes + 1 = s.run.brakes + 2; rw [hd])
              · intro hnr
                have hd := hdelta.2 hnr
                show run2.brakes + 1 = s.run.brakes + 1
                rw [hd]
          · rw [if_neg hok] at h
            have hok' : r.ok = true := by
              cases hr2 : r.ok
              · rw [hr2] at hok; simp at hok
              · rfl
            have heqb : run2.brakes = s.run.brakes := brakeDelta_ok_eq hdelta hok'
            have hih := ih ⟨run2, s.conducted ++ [op], s.error_offset ++ [!r.ok]⟩ res s' h
            constructor
            · intro ht
              exact (hih.1 ht).trans heqb
            · intro hf
              obtain ⟨h1, h2⟩ := hih.2 hf
              constructor
              · rcases h1 with h1 | h1
                · exact Or.inl (h1.trans (by rw [heqb]))
                · exact Or.inr (h1.trans (by rw [heqb]))
              · intro hnr
                exact (h2 hnr).trans (by rw [heqb])

theorem do_move_loop_trace (env : Env) (hnr : NoRaise env) : ∀ (n : Nat) (st : RunSt),
    ∃ b k st1, do_move_loop env n st = (.fin b, st1) ∧
      st1.trace = st.trace ++ List.replicate k SdkCall.Move ∧
      st1.brakes = st.brakes := by
  intro n
  induction n with
  | zero => intro st; exact ⟨false, 0, st, rfl, by simp, rfl⟩
  | succ n ih =>
    intro st
    simp only [do_move_loop, intrCheck, sdkCall]
    cases hb : env.intr st.intrIx
    · simp only [Bool.false_eq_true, if_false]
      cases h1 : env.sdk ({ st with intrIx := st.intrIx + 1 } : RunSt).sdkIx with
      | exn m =>
        exfalso
        have hx := hnr st.sdkIx
        rw [show st.sdkIx = ({ st with intrIx := st.intrIx + 1 } : RunSt).sdkIx from rfl, h1] at hx
        simp [SdkRes.isExn] at hx
      | ret code =>
        obtain ⟨b, k, st1, hrun, htr, hbr⟩ := ih { st with intrIx := st.intrIx + 1, sdkIx := st.sdkIx + 1, trace := st.trace ++ [SdkCall.Move] }
        refine ⟨b, k + 1, st1, hrun, ?_, hbr⟩
        rw [htr]
        simp [List.replicate_succ, List.append_assoc]
    · exact ⟨true, 0, { st with intrIx := st.intrIx + 1 }, rfl, by simp, rfl⟩

/- ============== Claims C1, C2, C3, C7, C9, C10 ==================== -/

/-- Claim C1 (code_bug evidence): for the length-2 sequence
["jump", "forward"] whose first operation fails (unknown op), the
runner already pads the error-offset log to length 2, and
`_finalize_error_offset` pads it again by `len(sequence) -
len(conducted)`, so the published record has length 3, not N = 2. -/
theorem claim1_error_offset_published_length :
    ((["jump", "forward"] : List String).length = 2) ∧
    (execute_sequence envAllOk none ["jump", "forward"] runSt0).map
        (fun p => (p.1, finalize_error_offset ["jump", "forward"] p.2.conducted p.2.error_offset p.1.1)) =
      some ((false, some "op_error: unknown_op:jump"), [true, true, true]) ∧
    ([true, true, true] : List Bool).length = 3 :=
  ⟨rfl, rfl, rfl⟩

/-- Claim C2 counterexample: when the SDK Move call raises mid-move,
`_do_move`'s handler brakes once and the op-error path of
`_execute_sequence` brakes again — two brake invocations on a
success=false return with reason op_error, not exactly one. -/
theorem claim2_counterexample_double_brake :
    (execute_sequence envBoom none ["forward"] runSt0).map (fun p => (p.1, p.2.run.brakes)) =
      some ((false, some "op_error: boom"), 2) :=
  rfl

/-- Claim C2 (amended): every failing return of the sequence runner has
invoked the emergency brake at least once and at most twice before
returning; it is exactly once unless the SDK move call raised mid-move
(in particular, exactly once whenever no SDK call raises). -/
theorem claim2_amended_brake_bounds (env : Env) (intrReason : Option String) (seq : List String)
    (run0 : RunSt) (res : Bool × Option String) (s' : SeqSt)
    (h0 : run0.brakes = 0)
    (h : execute_sequence env intrReason seq run0 = some (res, s'))
    (hf : res.1 = false) :
    (s'.run.brakes = 1 ∨ s'.run.brakes = 2) ∧ (NoRaise env → s'.run.brakes = 1) := by
  have hs := (exec_go_spec env intrReason seq.length seq
    { run := run0, conducted := [], error_offset := [] } res s' h).2 hf
  constructor
  · rcases hs.1 with h1 | h1
    · exact Or.inl (by rw [h1]; simp [h0])
    · exact Or.inr (by rw [h1]; simp [h0])
  · intro hnr
    rw [hs.2 hnr]; simp [h0]

theorem claim2_amended_witness :
    (c2wRun.brakes = 1 ∨ c2wRun.brakes = 2) ∧ (NoRaise envAllOk → c2wRun.brakes = 1) :=
  claim2_amended_brake_bounds envAllOk none ["stop"] runSt0 (false, some "stopped_by_user")
    { run := c2wRun, conducted := ["stop"], error_offset := [true] } rfl rfl rfl

/-- Claim C3 counterexample: successful completion of the catalog
operation "test_gesture" by the motion executor re-enables the gesture
gate (it calls `_start_gesture_subscription`), so the gate is NOT
re-enabled only by explicit directives. -/
theorem claim3_counterexample_test_gesture_reenables :
    runSt0.gestureSwitch = false ∧
    (do_op envAllOk 3 "test_gesture" runSt0).map (fun p => (p.1.ok, p.2.gestureSwitch)) =
      some (true, true) :=
  ⟨rfl, rfl⟩

theorem handle_gsw_eq (p : Payload) (st : CtlSt) :
    ((handle_main_payload p st).1).gesture_switch = (preQueueState p st).gesture_switch := by
  simp only [handle_main_payload]
  split
  · split <;> rfl
  · split
    · rfl
    · split
      · split <;> rfl
      · rfl

/-- Claim C3 (amended): the gesture gate flips from disabled to enabled
only (a) in the motion executor, upon successful completion of one of
the two gate-opening catalog operations ("from1to2" or "test_gesture"),
or (b) in the intake handler, when the payload's command list contains
an explicit "gesture_on" directive. -/
theorem claim3_amended_gate_reenable_sources :
    (∀ (env : Env) (fuel : Nat) (op : String) (st : RunSt) (r : OpResult) (st' : RunSt),
      do_op env fuel op st = some (r, st') → st'.gestureSwitch = true →
      st.gestureSwitch = true ∨ op = gesture_on_area_move_command ∨ op = gesture_on_area_test) ∧
    (∀ (p : Payload) (st : CtlSt), ((handle_main_payload p st).1).gesture_switch = true →
      st.gesture_switch = true ∨ ∃ xs, p.command = some (JVal.arr xs) ∧ JAtom.jstr "gesture_on" ∈ xs) := by
  constructor
  · intro env fuel op st r st' h hg
    exact (do_op_spec env fuel op st r st' h).1 hg
  · intro p st h
    rw [handle_gsw_eq] at h
    exact preQueueState_gsw p st h

theorem claim3_amended_witness :
    (runSt0.gestureSwitch = true ∨ "test_gesture" = gesture_on_area_move_command ∨
      "test_gesture" = gesture_on_area_test) ∧
    (defaultCtl.gesture_switch = true ∨
      ∃ xs, (Payload.mk (some (.arr [.jstr "gesture_on"])) none none).command = some (JVal.arr xs) ∧
        JAtom.jstr "gesture_on" ∈ xs) :=
  ⟨claim3_amended_gate_reenable_sources.1 envAllOk 3 "test_gesture" runSt0
      ⟨true, .pbool false, .pnone⟩ c3wRun rfl rfl,
   claim3_amended_gate_reenable_sources.2
      { command := some (.arr [.jstr "gesture_on"]), move := none, say := none } defaultCtl rfl⟩

/-- Claim C7: when the robot is sitting and the operation is not one of
sit/stand/stop, `_do_op` first recursively executes "stand"; if that
implicit stand succeeds the requested operation is then dispatched from
the post-stand state, and if it fails the operation returns failure
whose detail begins with "auto_stand_failed" — and the enclosing
single-op sequence reports an op_error containing it. -/
theorem claim7_auto_stand_guard :
    (∀ (env : Env) (op : String) (st : RunSt) (r : OpResult) (st1 : RunSt),
      st.isSitting = true → (["sit", "stand", "stop"].contains op) = false →
      do_op env 2 "stand" st = some (r, st1) →
      (r.ok = true → do_op env 3 op st = do_op_core env (do_op env 2) op st1) ∧
      (r.ok = false →
        do_op env 3 op st =
          some (⟨false, .pbool false, .pstr ("auto_stand_failed: " ++ r.err.pystr)⟩, st1) ∧
        ∃ t, ("auto_stand_failed: " ++ r.err.pystr) = "auto_stand_failed" ++ t)) ∧
    (∀ (env : Env) (op : String) (run0 : RunSt) (r : OpResult) (st1 : RunSt),
      env.intr run0.intrIx = false →
      ({ run0 with intrIx := run0.intrIx + 1 } : RunSt).isSitting = true →
      (["sit", "stand", "stop"].contains op) = false →
      do_op env 2 "stand" ({ run0 with intrIx := run0.intrIx + 1 } : RunSt) = some (r, st1) →
      r.ok = false →
      execute_sequence env none [op] run0 =
        some ((false, some ("op_error: " ++ ("auto_stand_failed: " ++ r.err.pystr))),
          { run := emergency_brake env st1, conducted := [op], error_offset := [true] })) := by
  constructor
  · intro env op st r st1 hsit hop hstand
    have hguard : (st.isSitting && !(["sit", "stand", "stop"].contains op)) = true := by
      rw [hsit, hop]; rfl
    have h3 : do_op env 3 op st = do_op_step env (do_op env 2) op st := rfl
    constructor
    · intro hok
      rw [h3]; unfold do_op_step; rw [if_pos hguard]
      simp [hstand, hok]
    · intro hok
      refine ⟨?_, ⟨": " ++ r.err.pystr, ?_⟩⟩
      · rw [h3]; unfold do_op_step; rw [if_pos hguard]
        simp [hstand, hok]
      · rw [show ("auto_stand_failed: " : String) = "auto_stand_failed" ++ ": " from rfl,
          String.append_assoc]
  · intro env op run0 r st1 hintr hsit hop hstand hokf
    have hguard : (({ run0 with intrIx := run0.intrIx + 1 } : RunSt).isSitting &&
        !(["sit", "stand", "stop"].contains op)) = true := by
      rw [hsit, hop]; rfl
    have hdo : do_op env 3 op ({ run0 with intrIx := run0.intrIx + 1 } : RunSt) =
        some (⟨false, .pbool false, .pstr ("auto_stand_failed: " ++ r.err.pystr)⟩, st1) := by
      show do_op_step env (do_op env 2) op _ = _
      unfold do_op_step
      rw [if_pos hguard]
      simp [hstand, hokf]
    unfold execute_sequence exec_go
    simp only [intrCheck, hintr, Bool.false_eq_true, if_false, hdo]
    simp [PyVal.truthy, PyVal.pystr, pad_error_offset]

theorem claim7_witness :
    (do_op envStandFail 3 "forward" sitSt =
      some (⟨false, .pbool false, .pstr ("auto_stand_failed: " ++ "StandUp_failed_with_code_1")⟩, c7st1) ∧
      ∃ t, ("auto_stand_failed: " ++ ("StandUp_failed_with_code_1" : String)) = "auto_stand_failed" ++ t) ∧
    execute_sequence envStandFail none ["forward"] sitSt =
      some ((false, some ("op_error: " ++ ("auto_stand_failed: " ++ "StandUp_failed_with_code_1"))),
        { run := emergency_brake envStandFail c7st1b, conducted := ["forward"], error_offset := [true] }) :=
  ⟨(claim7_auto_stand_guard.1 envStandFail "forward" sitSt
      ⟨false, .pbool false, .pstr "StandUp_failed_with_code_1"⟩ c7st1 rfl rfl rfl).2 rfl,
   claim7_auto_stand_guard.2 envStandFail "forward" sitSt
      ⟨false, .pbool false, .pstr "StandUp_failed_with_code_1"⟩ c7st1b rfl rfl rfl rfl rfl⟩

/-- Claim C9: the recursive dispatch is total — depth budget 3 always
suffices for any operation name from any state (the posture guard is
excluded for sit/stand/stop and the implicit stand never recurses
further), because the catalog contains no cycles: no constituent of any
catalog entry is itself a catalog key; also `customLookup` agrees with
the catalog entry list. -/
theorem claim9_dispatch_total :
    (∀ (env : Env) (op : String) (st : RunSt), (do_op env 3 op st).isSome = true) ∧
    (customEntries.all (fun kv => kv.2.all (fun e => (customLookup e).isNone)) = true) ∧
    (customEntries.all (fun kv => customLookup kv.1 == some kv.2) = true) :=
  ⟨fun env op st => do_op3_some env op st, by decide, by decide⟩

theorem claim9_witness : (do_op envAllOk 3 "from1to2" runSt0).isSome = true :=
  claim9_dispatch_total.1 envAllOk "from1to2" runSt0

/-- Claim C10: on every non-exception return of a timed directional
move (the environment raises no SDK exception), whether the tick loop
ran its full budget or was cut short by the interruption signal, the
SDK calls issued by `_do_move` are some number of Move commands
followed by exactly one StopMove after the loop, and the emergency
brake is not invoked. -/
theorem claim10_stop_after_moves (env : Env) (st : RunSt) (hnr : NoRaise env) :
    ∃ k, (do_move env st).2.trace = st.trace ++ (List.replicate k SdkCall.Move ++ [SdkCall.StopMove]) ∧
      (do_move env st).2.brakes = st.brakes := by
  unfold do_move
  obtain ⟨b, k, st1, hrun, htr, hbr⟩ := do_move_loop_trace env hnr (env.moveTicks st.moveIx)
    { st with moveIx := st.moveIx + 1 }
  simp only [hrun, sdkCall]
  cases h2 : env.sdk st1.sdkIx with
  | exn m =>
    exfalso
    have hx := hnr st1.sdkIx
    rw [h2] at hx
    simp [SdkRes.isExn] at hx
  | ret code =>
    cases b
    · refine ⟨k, ?_, hbr⟩
      show st1.trace ++ [SdkCall.StopMove] = _
      rw [htr]
      simp [List.append_assoc]
    · refine ⟨k, ?_, hbr⟩
      show st1.trace ++ [SdkCall.StopMove] = _
      rw [htr]
      simp [List.append_assoc]

theorem claim10_witness :
    ∃ k, (do_move envTicks2 runSt0).2.trace =
        runSt0.trace ++ (List.replicate k SdkCall.Move ++ [SdkCall.StopMove]) ∧
      (do_move envTicks2 runSt0).2.brakes = runSt0.brakes :=
  claim10_stop_after_moves envTicks2 runSt0 (fun _ => rfl)

end RobotCtl
